import Mathlib

/-!
Shallow embedding of the contract-upgrade governance processor of the
wormhole-circle-integration Solana program
(`src/solana/programs/circle-integration/src/processor/governance/upgrade_contract.rs`).

The instruction handler `upgrade_contract` is guarded by an Anchor
`#[access_control(handle_access_control(&ctx))]` attribute and an
`#[derive(Accounts)]` context `UpgradeContract`.  The host (Anchor plus the
Solana runtime) first validates the account context in declaration order
(including `init`-creating the `consumed_vaa` replay-guard account, keyed by
the VAA digest), then runs the access-control function, then the handler body,
which stores the bump into the fresh `consumed_vaa` account and invokes the
BPF Loader Upgradeable program to replace this program's executable.

Pieces of behaviour that live outside the repository source (the PDA
derivation, the VAA digest, the governance-payload decoder
`require_valid_governance_vaa`, and the host's commit/rollback discipline) are
modelled from the specification; each such definition carries a doc comment
starting with `Modelled from the spec:`.
-/

set_option linter.unusedVariables false

namespace WormholeCircleIntegration

/-- Raw byte strings: account keys, PDA seeds and VAA contents. -/
abbrev Bytes := List Nat

/-- Wormhole chain identifier of Solana (`wormhole_cctp_solana::wormhole::SOLANA_CHAIN`). -/
def SOLANA_CHAIN : Nat := 1

/-- Program id of this circle-integration program (`crate::ID`); opaque constant. -/
def crateId : Bytes := [10]

/-- Program id of the Wormhole core bridge program (`core_bridge_program::id()`). -/
def coreBridgeProgramId : Bytes := [11]

/-- Program id of the BPF Loader Upgradeable program. -/
def bpfLoaderId : Bytes := [12]

/-- Address of the rent sysvar (`solana_program::sysvar::rent::id()`). -/
def rentId : Bytes := [13]

/-- Address of the clock sysvar (`solana_program::sysvar::clock::id()`). -/
def clockId : Bytes := [14]

/-- Address of the system program. -/
def systemId : Bytes := [15]

/-- Seed label of the custodian account (the source's `Custodian::SEED_PREFIX`). -/
def custodianSeed : Bytes := [20]

/-- Seed label of consumed-VAA records (the source's `ConsumedVaa::SEED_PREFIX`). -/
def consumedVaaSeed : Bytes := [21]

/-- Seed label of the upgrade authority (the source's `UPGRADE_SEED_PREFIX`). -/
def upgradeSeed : Bytes := [22]

/-- Modelled from the spec: deterministic program-derived-address computation
from a list of seed byte strings (the platform's address derivation, which is
not part of this repository).  The spec requires a deterministic fingerprint
that uniquely identifies its inputs, so it is modelled as an injective
length-tagged concatenation of the seeds. -/
def pda (seeds : List Bytes) : Bytes :=
  seeds.foldr (fun s acc => s.length :: (s ++ acc)) []

/-- Modelled from the spec: the address a program `pid` derives from `seeds`
together with an explicit derivation-proof byte `bump` (the platform's
`create_program_address`). -/
def createAddr (pid : Bytes) (seeds : List Bytes) (bump : Nat) : Bytes :=
  pda (pid :: (seeds ++ [[bump]]))

/-- Modelled from the spec: the canonical derivation-proof byte the host finds
for a seed list (the platform's `find_program_address` bump search); modelled
as the maximal byte value, which the search starts from. -/
def findBump (pid : Bytes) (seeds : List Bytes) : Nat := 255

/-- Modelled from the spec: the canonical derived address of `seeds` under
program `pid` (the platform's `find_program_address`). -/
def findAddr (pid : Bytes) (seeds : List Bytes) : Bytes :=
  createAddr pid seeds (findBump pid seeds)

/-- The custodian account data (`state::Custodian`): the two stored
derivation-proof bytes read by this instruction. -/
structure Custodian where
  bump : Nat
  upgradeAuthorityBump : Nat
deriving DecidableEq

/-- A consumed-VAA record (`state::ConsumedVaa`): stores only the
derivation-proof byte of its own address. -/
structure ConsumedVaa where
  bump : Nat
deriving DecidableEq

/-- Durable program state touched by this instruction: the custodian account's
data and the set of existing consumed-VAA record accounts, as an association
list from account address to record data. -/
structure ProgState where
  custodian : Custodian
  consumed : List (Bytes × ConsumedVaa)
deriving DecidableEq

/-- Look up the consumed-VAA record stored at address `k`, if any. -/
def ProgState.record (s : ProgState) (k : Bytes) : Option ConsumedVaa :=
  (s.consumed.find? (fun p => decide (p.1 = k))).map (fun p => p.2)

/-- Create a fresh consumed-VAA record account at address `k` (Anchor `init`). -/
def ProgState.insertRecord (s : ProgState) (k : Bytes) (r : ConsumedVaa) : ProgState :=
  { s with consumed := (k, r) :: s.consumed }

/-- Overwrite the data of the record account at address `k` (`set_inner`). -/
def ProgState.setRecord (s : ProgState) (k : Bytes) (r : ConsumedVaa) : ProgState :=
  { s with consumed := s.consumed.map (fun p => if p.1 = k then (k, r) else p) }

/-- The identity and owner of an account passed to the instruction. -/
structure AccountInfo where
  key : Bytes
  owner : Bytes
deriving DecidableEq

/-- A decoded contract-upgrade governance decree: the targeted chain id and
the 32-byte identity of the new implementation. -/
structure UpgradeDecree where
  chain : Nat
  implementation : Bytes
deriving DecidableEq

/-- A recognized governance payload: either the contract-upgrade action or
some other governance action (fee update, parameter change, ...). -/
inductive GovPayload where
  | contractUpgrade (d : UpgradeDecree)
  | otherAction (tag : Nat)
deriving DecidableEq

/-- Narrowing of a generic governance payload to the contract-upgrade decree
(the SDK's `gov_payload.contract_upgrade()`). -/
def GovPayload.contract_upgrade : GovPayload → Option UpgradeDecree
  | .contractUpgrade d => some d
  | .otherAction _ => none

/-- Outcome of interpreting a posted VAA's bytes as a governance message. -/
inductive GovParse where
  | malformed
  | notGovernance
  | governance (p : GovPayload)
deriving DecidableEq

/-- The content of the posted-VAA account: whether its discriminator is the
posted-VAA discriminator, its raw envelope bytes, and how those bytes parse
as a governance message (the parse is carried as data because the wire format
is owned by the external messaging layer, not by this core). -/
structure VaaData where
  discriminatorOk : Bool
  bytes : Bytes
  parse : GovParse
deriving DecidableEq

/-- Modelled from the spec: the envelope fingerprint is a fixed-width digest
uniquely identifying the envelope's raw content (not its decoded semantic
fields); modelled as the raw content itself. -/
def VaaData.digest (v : VaaData) : Bytes := v.bytes

/-- Typed failures of a processing attempt. -/
inductive ProcError where
  | AccountNotSigner
  | ConstraintSeeds
  | ConstraintOwner
  | ConstraintAddress
  | InvalidProgramId
  | InvalidVaaAccount
  | AlreadyConsumed
  | MalformedEnvelope
  | NotAGovernanceMessage
  | InvalidGovernanceAction
  | GovernanceForAnotherChain
  | ImplementationMismatch
  | UpgradeFailed (code : Nat)
deriving DecidableEq

/-- Zero-copy load of the posted-VAA account (`VaaAccount::load`): checks the
account discriminator and exposes the content. -/
def VaaAccount.load (v : VaaData) : Except ProcError VaaData :=
  if v.discriminatorOk then .ok v else .error .InvalidVaaAccount

/-- Modelled from the spec: `crate::processor::require_valid_governance_vaa`
(repository code outside `src/`): decode the envelope into a generic
governance payload, failing with `MalformedEnvelope` if the envelope cannot
be parsed at all and with `NotAGovernanceMessage` if it parses but is not
from the recognized governance message family. -/
def require_valid_governance_vaa (v : VaaData) : Except ProcError GovPayload :=
  match v.parse with
  | .malformed => .error .MalformedEnvelope
  | .notGovernance => .error .NotAGovernanceMessage
  | .governance p => .ok p

/-- `Pubkey::from` on the decree's 32-byte implementation field: decodes the
bytes into the native identity format (identity in this model). -/
def pubkeyFrom (b : Bytes) : Bytes := b

/-- The accounts supplied to one `upgrade_contract` call, in the declaration
order of the `UpgradeContract` accounts context. -/
structure Accs where
  payer : AccountInfo
  payerIsSigner : Bool
  custodianAcct : AccountInfo
  vaaAcct : AccountInfo
  vaaData : VaaData
  upgradeAuthority : AccountInfo
  spill : AccountInfo
  buffer : AccountInfo
  programData : AccountInfo
  thisProgram : AccountInfo
  rentAcct : AccountInfo
  clockAcct : AccountInfo
  bpfLoaderProg : AccountInfo
  systemProg : AccountInfo
deriving DecidableEq

/-- Address of the consumed-VAA record derived from an envelope's digest:
seeds `[ConsumedVaa seed label, digest]` under this program's id. -/
def consumedKeyOf (v : VaaData) : Bytes :=
  findAddr crateId [consumedVaaSeed, v.digest]

/-- Address of the consumed-VAA record for the envelope of a call. -/
def consumedKey (a : Accs) : Bytes := consumedKeyOf a.vaaData

/-- Anchor's generated account-context validation for `UpgradeContract`,
checking each account's constraints in declaration order:
`payer` must sign; `custodian` must live at the PDA of its seed label under
its stored bump; `vaa` must be owned by the core bridge program; the
`consumed_vaa` record is `init`-created at the PDA of the seed label and the
loaded VAA's digest, failing if a record already exists at that address (the
atomic replay gate); `upgrade_authority` must live at the PDA of the upgrade
seed label under the custodian's stored upgrade-authority bump; then the
program-data, this-program, rent, clock and the two program accounts are
checked against their fixed addresses.  Returns the state with the staged
record together with the record account's bump. -/
def try_accounts (s0 : ProgState) (a : Accs) : Except ProcError (ProgState × Nat) :=
  if a.payerIsSigner = false then .error .AccountNotSigner
  else if a.custodianAcct.key ≠ createAddr crateId [custodianSeed] s0.custodian.bump then
    .error .ConstraintSeeds
  else if a.vaaAcct.owner ≠ coreBridgeProgramId then .error .ConstraintOwner
  else
    match VaaAccount.load a.vaaData with
    | .error e => .error e
    | .ok vaa =>
      if (s0.record (findAddr crateId [consumedVaaSeed, vaa.digest])).isSome then
        .error .AlreadyConsumed
      else
        let s1 := s0.insertRecord (findAddr crateId [consumedVaaSeed, vaa.digest]) { bump := 0 }
        if a.upgradeAuthority.key ≠
            createAddr crateId [upgradeSeed] s0.custodian.upgradeAuthorityBump then
          .error .ConstraintSeeds
        else if a.programData.key ≠ findAddr bpfLoaderId [crateId] then .error .ConstraintSeeds
        else if a.thisProgram.key ≠ crateId then .error .ConstraintAddress
        else if a.rentAcct.key ≠ rentId then .error .ConstraintAddress
        else if a.clockAcct.key ≠ clockId then .error .ConstraintAddress
        else if a.bpfLoaderProg.key ≠ bpfLoaderId then .error .InvalidProgramId
        else if a.systemProg.key ≠ systemId then .error .InvalidProgramId
        else .ok (s1, findBump crateId [consumedVaaSeed, vaa.digest])

/-- The source's `handle_access_control`: load the VAA, decode it as a valid
governance VAA, narrow to the contract-upgrade decree (failing with
`InvalidGovernanceAction` otherwise), require the decree's chain to equal
`SOLANA_CHAIN` (failing with `GovernanceForAnotherChain`), and require the
decree's implementation key to equal the supplied buffer account's key
(failing with `ImplementationMismatch`). -/
def handle_access_control (a : Accs) : Except ProcError Unit :=
  match VaaAccount.load a.vaaData with
  | .error e => .error e
  | .ok vaa =>
    match require_valid_governance_vaa vaa with
    | .error e => .error e
    | .ok gov_payload =>
      match gov_payload.contract_upgrade with
      | none => .error .InvalidGovernanceAction
      | some upgrade =>
        if upgrade.chain ≠ SOLANA_CHAIN then .error .GovernanceForAnotherChain
        else if pubkeyFrom upgrade.implementation ≠ a.buffer.key then
          .error .ImplementationMismatch
        else .ok ()

/-- One invocation of the external code-replacement primitive
(`bpf_loader_upgradeable::upgrade`), recording every account handed to it and
the signer seeds of the derived authority. -/
structure UpgradeCall where
  program : Bytes
  programData : Bytes
  buffer : Bytes
  authority : Bytes
  spill : Bytes
  rent : Bytes
  clock : Bytes
  signerSeeds : List Bytes
deriving DecidableEq

/-- The observable outcome of one processing attempt: the returned result,
the durable state after the host commits or rolls back, whether the decree
validator's business logic ran, and the list of upgrade invocations made. -/
structure Outcome where
  result : Except ProcError Unit
  state : ProgState
  validatorRan : Bool
  upgradeCalls : List UpgradeCall

/-- One full processing attempt of the `upgrade_contract` instruction.
`cpi` is the external upgrade primitive's verdict for this call (`none` for
success, `some code` for a platform-level failure).

Faithful to the generated code order: account-context validation first
(including the atomic `init` of the replay record), then
`handle_access_control`, then the handler body, which stores the bump into
the record (`set_inner`) and invokes the upgrade primitive with this program,
its program data, the buffer, the derived upgrade authority signing with
seeds `[UPGRADE_SEED_PREFIX, [custodian.upgrade_authority_bump]]`, the spill
account, and the rent and clock sysvars.

Commit discipline modelled from the spec: a failure before the record is
finalized (context validation or decree validation) leaves the durable state
unchanged; once validation has succeeded the record is finalized, and a
failure of the external upgrade primitive is surfaced fatally without rolling
the record back. -/
def process (s0 : ProgState) (a : Accs) (cpi : Option Nat) : Outcome :=
  match try_accounts s0 a with
  | .error e => { result := .error e, state := s0, validatorRan := false, upgradeCalls := [] }
  | .ok (s1, bump) =>
    match handle_access_control a with
    | .error e => { result := .error e, state := s0, validatorRan := true, upgradeCalls := [] }
    | .ok _ =>
      let s2 := s1.setRecord (consumedKey a) { bump := bump }
      let call : UpgradeCall :=
        { program := a.thisProgram.key
          programData := a.programData.key
          buffer := a.buffer.key
          authority := a.upgradeAuthority.key
          spill := a.spill.key
          rent := a.rentAcct.key
          clock := a.clockAcct.key
          signerSeeds := [upgradeSeed, [s0.custodian.upgradeAuthorityBump]] }
      match cpi with
      | none => { result := .ok (), state := s2, validatorRan := true, upgradeCalls := [call] }
      | some code =>
          { result := .error (.UpgradeFailed code), state := s2, validatorRan := true,
            upgradeCalls := [call] }

/-- Example custodian data used by concrete witnesses. -/
def exCustodian : Custodian := { bump := 3, upgradeAuthorityBump := 5 }

/-- Example posted VAA carrying a well-targeted contract-upgrade decree. -/
def exVaa : VaaData :=
  { discriminatorOk := true, bytes := [1, 2, 3],
    parse := .governance (.contractUpgrade { chain := SOLANA_CHAIN, implementation := [7, 7] }) }

/-- Example program state with no consumed records. -/
def exState : ProgState := { custodian := exCustodian, consumed := [] }

/-- Example account set satisfying every constraint of the accounts context. -/
def exAccs : Accs :=
  { payer := { key := [50], owner := systemId }
    payerIsSigner := true
    custodianAcct := { key := createAddr crateId [custodianSeed] 3, owner := crateId }
    vaaAcct := { key := [51], owner := coreBridgeProgramId }
    vaaData := exVaa
    upgradeAuthority := { key := createAddr crateId [upgradeSeed] 5, owner := crateId }
    spill := { key := [52], owner := systemId }
    buffer := { key := [7, 7], owner := bpfLoaderId }
    programData := { key := findAddr bpfLoaderId [crateId], owner := bpfLoaderId }
    thisProgram := { key := crateId, owner := bpfLoaderId }
    rentAcct := { key := rentId, owner := systemId }
    clockAcct := { key := clockId, owner := systemId }
    bpfLoaderProg := { key := bpfLoaderId, owner := systemId }
    systemProg := { key := systemId, owner := systemId } }

/-- Example account set whose envelope carries a decree for another chain. -/
def exAccsWrongChain : Accs :=
  { exAccs with vaaData :=
    { exVaa with parse := .governance (.contractUpgrade { chain := 9, implementation := [7, 7] }) } }

/-- Example account set whose envelope carries a non-upgrade governance action. -/
def exAccsOtherAction : Accs :=
  { exAccs with vaaData := { exVaa with parse := .governance (.otherAction 4) } }

/-- Example account set whose buffer key differs from the decree's implementation. -/
def exAccsMismatch : Accs :=
  { exAccs with buffer := { key := [9, 9], owner := bpfLoaderId } }

lemma record_insert (s : ProgState) (k k' : Bytes) (r : ConsumedVaa) :
    (s.insertRecord k r).record k' = if k' = k then some r else s.record k' := by
  by_cases h : k' = k
  · subst h
    simp [ProgState.insertRecord, ProgState.record, List.find?_cons_of_pos]
  · have : decide (k = k') = false := by
      simp [decide_eq_false_iff_not]
      exact fun hk => h hk.symm
    simp [ProgState.insertRecord, ProgState.record, List.find?_cons_of_neg, this, h]

lemma map_set_id (l : List (Bytes × ConsumedVaa)) (k : Bytes) (r' : ConsumedVaa)
    (h : l.find? (fun p => decide (p.1 = k)) = none) :
    l.map (fun p => if p.1 = k then (k, r') else p) = l := by
  induction l with
  | nil => rfl
  | cons p t ih =>
    by_cases hp : p.1 = k
    · rw [List.find?_cons_of_pos _ (by simpa using hp)] at h
      exact absurd h (by simp)
    · rw [List.find?_cons_of_neg _ (by simpa using hp)] at h
      simp only [List.map_cons, if_neg hp, ih h]

lemma set_insert (s : ProgState) (k : Bytes) (r r' : ConsumedVaa)
    (h : s.record k = none) :
    (s.insertRecord k r).setRecord k r' = s.insertRecord k r' := by
  cases s with
  | mk cust l =>
    have hl : l.find? (fun p => decide (p.1 = k)) = none := by
      simpa [ProgState.record, Option.map_eq_none'] using h
    simp only [ProgState.insertRecord, ProgState.setRecord, List.map_cons, if_pos rfl,
      ProgState.mk.injEq, List.cons.injEq, true_and]
    exact ⟨by simp, map_set_id l k r' hl⟩

lemma try_accounts_ok {s : ProgState} {a : Accs} {s1 : ProgState} {b : Nat}
    (h : try_accounts s a = .ok (s1, b)) :
    a.payerIsSigner = true ∧
    a.custodianAcct.key = createAddr crateId [custodianSeed] s.custodian.bump ∧
    a.vaaAcct.owner = coreBridgeProgramId ∧
    a.vaaData.discriminatorOk = true ∧
    s.record (consumedKey a) = none ∧
    s1 = s.insertRecord (consumedKey a) { bump := 0 } ∧
    b = findBump crateId [consumedVaaSeed, a.vaaData.digest] ∧
    a.upgradeAuthority.key = createAddr crateId [upgradeSeed] s.custodian.upgradeAuthorityBump ∧
    a.programData.key = findAddr bpfLoaderId [crateId] ∧
    a.thisProgram.key = crateId ∧
    a.rentAcct.key = rentId ∧
    a.clockAcct.key = clockId ∧
    a.bpfLoaderProg.key = bpfLoaderId ∧
    a.systemProg.key = systemId := by
  rw [try_accounts] at h
  by_cases c1 : a.payerIsSigner = false
  · rw [if_pos c1] at h; exact Except.noConfusion h
  rw [if_neg c1] at h
  by_cases c2 : a.custodianAcct.key ≠ createAddr crateId [custodianSeed] s.custodian.bump
  · rw [if_pos c2] at h; exact Except.noConfusion h
  rw [if_neg c2] at h
  by_cases c3 : a.vaaAcct.owner ≠ coreBridgeProgramId
  · rw [if_pos c3] at h; exact Except.noConfusion h
  rw [if_neg c3] at h
  by_cases hd : a.vaaData.discriminatorOk = true
  case neg =>
    simp only [VaaAccount.load, if_neg hd] at h
    exact Except.noConfusion h
  simp only [VaaAccount.load, if_pos hd] at h
  by_cases c4 : (s.record (findAddr crateId [consumedVaaSeed, a.vaaData.digest])).isSome = true
  · rw [if_pos c4] at h; exact Except.noConfusion h
  rw [if_neg c4] at h
  by_cases c5 :
      a.upgradeAuthority.key ≠ createAddr crateId [upgradeSeed] s.custodian.upgradeAuthorityBump
  · rw [if_pos c5] at h; exact Except.noConfusion h
  rw [if_neg c5] at h
  by_cases c6 : a.programData.key ≠ findAddr bpfLoaderId [crateId]
  · rw [if_pos c6] at h; exact Except.noConfusion h
  rw [if_neg c6] at h
  by_cases c7 : a.thisProgram.key ≠ crateId
  · rw [if_pos c7] at h; exact Except.noConfusion h
  rw [if_neg c7] at h
  by_cases c8 : a.rentAcct.key ≠ rentId
  · rw [if_pos c8] at h; exact Except.noConfusion h
  rw [if_neg c8] at h
  by_cases c9 : a.clockAcct.key ≠ clockId
  · rw [if_pos c9] at h; exact Except.noConfusion h
  rw [if_neg c9] at h
  by_cases c10 : a.bpfLoaderProg.key ≠ bpfLoaderId
  · rw [if_pos c10] at h; exact Except.noConfusion h
  rw [if_neg c10] at h
  by_cases c11 : a.systemProg.key ≠ systemId
  · rw [if_pos c11] at h; exact Except.noConfusion h
  rw [if_neg c11] at h
  rw [Except.ok.injEq, Prod.mk.injEq] at h
  rw [Bool.not_eq_false] at c1
  rw [ne_eq, not_not] at c2 c3 c5 c6 c7 c8 c9 c10 c11
  rw [Bool.not_eq_true] at c4
  have c4' : s.record (findAddr crateId [consumedVaaSeed, a.vaaData.digest]) = none := by
    rcases hr : s.record (findAddr crateId [consumedVaaSeed, a.vaaData.digest]) with _ | r
    · rfl
    · rw [hr] at c4; exact absurd c4 (by simp)
  exact ⟨c1, c2, c3, hd, by simpa [consumedKey, consumedKeyOf] using c4',
    by simpa [consumedKey, consumedKeyOf] using h.1.symm, h.2.symm,
    c5, c6, c7, c8, c9, c10, c11⟩

/-- Claim C1: if a consumption record keyed by the envelope's fingerprint
already exists, a processing attempt fails with the replay error at the
record-creation step itself, before the decree validator's business logic
runs, and no state is mutated. -/
theorem claim1_replay_fails_closed (s : ProgState) (a : Accs) (cpi : Option Nat)
    (hsig : a.payerIsSigner = true)
    (hcust : a.custodianAcct.key = createAddr crateId [custodianSeed] s.custodian.bump)
    (hown : a.vaaAcct.owner = coreBridgeProgramId)
    (hload : a.vaaData.discriminatorOk = true)
    (hdup : (s.record (consumedKey a)).isSome = true) :
    process s a cpi =
      { result := .error .AlreadyConsumed, state := s, validatorRan := false,
        upgradeCalls := [] } := by
  have hdup' : (s.record (findAddr crateId [consumedVaaSeed, a.vaaData.digest])).isSome = true := by
    simpa [consumedKey, consumedKeyOf] using hdup
  have htry : try_accounts s a = .error .AlreadyConsumed := by
    rw [try_accounts]
    simp only [VaaAccount.load, hsig, hcust, hown, hload, hdup', if_true, ne_eq,
      not_true_eq_false, if_false, Bool.true_eq_false, not_false_eq_true]
  simp only [process, htry]

/-- Claim C1 witness: a concrete replayed envelope is rejected with the
replay error, the validator does not run, and the state is untouched. -/
theorem claim1_witness :
    process { custodian := exCustodian, consumed := [(consumedKey exAccs, { bump := 255 })] }
        exAccs none =
      { result := .error .AlreadyConsumed,
        state := { custodian := exCustodian,
                   consumed := [(consumedKey exAccs, { bump := 255 })] },
        validatorRan := false, upgradeCalls := [] } :=
  claim1_replay_fails_closed _ exAccs none rfl rfl rfl rfl (by decide)

/-- Claim C9: the handler never mutates the custodian account: its contents
are identical before and after every execution, successful or not. -/
theorem claim9_custodian_frame (s : ProgState) (a : Accs) (cpi : Option Nat) :
    (process s a cpi).state.custodian = s.custodian := by
  unfold process
  cases h1 : try_accounts s a with
  | error e => rfl
  | ok p =>
    obtain ⟨s1, b⟩ := p
    have hs1 : s1.custodian = s.custodian := by
      rw [(try_accounts_ok h1).2.2.2.2.2.1]
      rfl
    cases h2 : handle_access_control a with
    | error e => rfl
    | ok u => cases cpi <;> simp [ProgState.setRecord, hs1]

/-- Claim C10: if the supplied vaa account is not owned by the core bridge
program, the call is rejected before any decree decoding, record creation or
upgrade invocation, with no state mutated (the theorem holds for every
`vaaData`, so the envelope content is never examined). -/
theorem claim10_vaa_owner_gate (s : ProgState) (a : Accs) (cpi : Option Nat)
    (hsig : a.payerIsSigner = true)
    (hcust : a.custodianAcct.key = createAddr crateId [custodianSeed] s.custodian.bump)
    (hown : a.vaaAcct.owner ≠ coreBridgeProgramId) :
    process s a cpi =
      { result := .error .ConstraintOwner, state := s, validatorRan := false,
        upgradeCalls := [] } := by
  have htry : try_accounts s a = .error .ConstraintOwner := by
    rw [try_accounts]
    simp only [hsig, hcust, hown, if_true, ne_eq, not_true_eq_false, if_false,
      Bool.true_eq_false, not_false_eq_true]
  simp only [process, htry]

/-- Claim C10 witness: a concrete call whose vaa account has the wrong owner
is rejected with the owner-constraint error and mutates nothing. -/
theorem claim10_witness :
    process exState { exAccs with vaaAcct := { key := [51], owner := systemId } } none =
      { result := .error .ConstraintOwner, state := exState, validatorRan := false,
        upgradeCalls := [] } :=
  claim10_vaa_owner_gate exState _ none rfl rfl (by decide)

lemma access_ok {a : Accs} {p : GovPayload} {up : UpgradeDecree}
    (hload : a.vaaData.discriminatorOk = true)
    (hparse : a.vaaData.parse = .governance p)
    (hup : p.contract_upgrade = some up)
    (hchain : up.chain = SOLANA_CHAIN)
    (himpl : pubkeyFrom up.implementation = a.buffer.key) :
    handle_access_control a = .ok () := by
  simp only [handle_access_control, VaaAccount.load, hload, if_true,
    require_valid_governance_vaa, hparse, hup, hchain, himpl, ne_eq, not_true_eq_false,
    if_false, eq_self_iff_true]

lemma access_wrong_action {a : Accs} {p : GovPayload}
    (hload : a.vaaData.discriminatorOk = true)
    (hparse : a.vaaData.parse = .governance p)
    (hup : p.contract_upgrade = none) :
    handle_access_control a = .error .InvalidGovernanceAction := by
  simp only [handle_access_control, VaaAccount.load, hload, if_true,
    require_valid_governance_vaa, hparse, hup]

lemma access_wrong_chain {a : Accs} {p : GovPayload} {up : UpgradeDecree}
    (hload : a.vaaData.discriminatorOk = true)
    (hparse : a.vaaData.parse = .governance p)
    (hup : p.contract_upgrade = some up)
    (hchain : up.chain ≠ SOLANA_CHAIN) :
    handle_access_control a = .error .GovernanceForAnotherChain := by
  simp only [handle_access_control, VaaAccount.load, hload, if_true,
    require_valid_governance_vaa, hparse, hup, hchain, ne_eq, not_false_eq_true, if_true]

lemma access_mismatch {a : Accs} {p : GovPayload} {up : UpgradeDecree}
    (hload : a.vaaData.discriminatorOk = true)
    (hparse : a.vaaData.parse = .governance p)
    (hup : p.contract_upgrade = some up)
    (hchain : up.chain = SOLANA_CHAIN)
    (himpl : pubkeyFrom up.implementation ≠ a.buffer.key) :
    handle_access_control a = .error .ImplementationMismatch := by
  simp only [handle_access_control, VaaAccount.load, hload, if_true,
    require_valid_governance_vaa, hparse, hup, hchain, himpl, ne_eq, not_true_eq_false,
    if_false, not_false_eq_true, if_true, eq_self_iff_true]

lemma process_ok {s : ProgState} {a : Accs} {s1 : ProgState} {b : Nat} (cpi : Option Nat)
    (h1 : try_accounts s a = .ok (s1, b))
    (h2 : handle_access_control a = .ok ()) :
    process s a cpi =
      { result := (match cpi with
          | none => .ok ()
          | some code => .error (.UpgradeFailed code)),
        state := s.insertRecord (consumedKey a) { bump := b },
        validatorRan := true,
        upgradeCalls := [{ program := a.thisProgram.key
                           programData := a.programData.key
                           buffer := a.buffer.key
                           authority := a.upgradeAuthority.key
                           spill := a.spill.key
                           rent := a.rentAcct.key
                           clock := a.clockAcct.key
                           signerSeeds := [upgradeSeed,
                             [s.custodian.upgradeAuthorityBump]] }] } := by
  have hfresh := (try_accounts_ok h1).2.2.2.2.1
  have hs1 := (try_accounts_ok h1).2.2.2.2.2.1
  have hset := set_insert s (consumedKey a) { bump := 0 } { bump := b } hfresh
  cases cpi <;> simp only [process, h1, h2, hs1, hset]

/-- Claim C2: for a fresh envelope, after a processing attempt the consumption
record exists if and only if the decree validator ran and succeeded on this
attempt; and any attempt rejected by validation leaves the state unchanged
(zero consumption records) and performs zero upgrade invocations. -/
theorem claim2_record_iff_validation (s : ProgState) (a : Accs) (cpi : Option Nat)
    (hfresh : s.record (consumedKey a) = none) :
    (((process s a cpi).state.record (consumedKey a)).isSome = true ↔
      ((process s a cpi).validatorRan = true ∧ handle_access_control a = .ok ())) ∧
    (handle_access_control a ≠ .ok () →
      (process s a cpi).state = s ∧ (process s a cpi).upgradeCalls = []) := by
  cases h1 : try_accounts s a with
  | error e =>
    simp only [process, h1]
    exact ⟨by simp [hfresh], fun _ => ⟨trivial, trivial⟩⟩
  | ok pr =>
    obtain ⟨s1, b⟩ := pr
    cases h2 : handle_access_control a with
    | error e =>
      simp only [process, h1, h2]
      exact ⟨by simp [hfresh], fun _ => ⟨trivial, trivial⟩⟩
    | ok u =>
      obtain ⟨⟩ := u
      rw [process_ok cpi h1 h2]
      refine ⟨?_, fun hne => absurd rfl hne⟩
      simp [record_insert]

/-- Claim C2 witness: a concrete fresh, valid envelope is recorded and
validated; the iff holds at this input. -/
theorem claim2_witness :
    (((process exState exAccs none).state.record (consumedKey exAccs)).isSome = true ↔
      ((process exState exAccs none).validatorRan = true ∧
        handle_access_control exAccs = .ok ())) ∧
    (handle_access_control exAccs ≠ .ok () →
      (process exState exAccs none).state = exState ∧
      (process exState exAccs none).upgradeCalls = []) :=
  claim2_record_iff_validation exState exAccs none rfl

/-- Claim C3: a decree whose chain field differs from `SOLANA_CHAIN` is
rejected with `GovernanceForAnotherChain` and creates no consumption record
(on an otherwise well-formed call for a fresh envelope). -/
theorem claim3_wrong_chain_rejected (s : ProgState) (a : Accs) (cpi : Option Nat)
    (s1 : ProgState) (b : Nat) (p : GovPayload) (up : UpgradeDecree)
    (htry : try_accounts s a = .ok (s1, b))
    (hparse : a.vaaData.parse = .governance p)
    (hup : p.contract_upgrade = some up)
    (hchain : up.chain ≠ SOLANA_CHAIN) :
    (process s a cpi).result = .error .GovernanceForAnotherChain ∧
    (process s a cpi).state = s ∧
    (process s a cpi).state.record (consumedKey a) = none ∧
    (process s a cpi).upgradeCalls = [] := by
  have hload := (try_accounts_ok htry).2.2.2.1
  have hfresh := (try_accounts_ok htry).2.2.2.2.1
  have hacc := access_wrong_chain hload hparse hup hchain
  simp only [process, htry, hacc]
  exact ⟨trivial, trivial, hfresh, trivial⟩

/-- Claim C3 witness: a concrete decree targeting chain 9 is rejected with
the targeting error and leaves no record. -/
theorem claim3_witness :
    (process exState exAccsWrongChain none).result = .error .GovernanceForAnotherChain ∧
    (process exState exAccsWrongChain none).state = exState ∧
    (process exState exAccsWrongChain none).state.record (consumedKey exAccsWrongChain) = none ∧
    (process exState exAccsWrongChain none).upgradeCalls = [] :=
  claim3_wrong_chain_rejected exState exAccsWrongChain none
    (exState.insertRecord (consumedKey exAccsWrongChain) { bump := 0 }) 255
    (.contractUpgrade { chain := 9, implementation := [7, 7] })
    { chain := 9, implementation := [7, 7] } rfl rfl rfl (by decide)

/-- Claim C4: a decree whose decoded implementation key differs from the
caller-supplied buffer account's key is rejected with
`ImplementationMismatch` and mutates no state (on an otherwise well-formed
call for a fresh envelope whose decree targets this chain). -/
theorem claim4_implementation_mismatch (s : ProgState) (a : Accs) (cpi : Option Nat)
    (s1 : ProgState) (b : Nat) (p : GovPayload) (up : UpgradeDecree)
    (htry : try_accounts s a = .ok (s1, b))
    (hparse : a.vaaData.parse = .governance p)
    (hup : p.contract_upgrade = some up)
    (hchain : up.chain = SOLANA_CHAIN)
    (hmis : pubkeyFrom up.implementation ≠ a.buffer.key) :
    (process s a cpi).result = .error .ImplementationMismatch ∧
    (process s a cpi).state = s ∧
    (process s a cpi).upgradeCalls = [] := by
  have hload := (try_accounts_ok htry).2.2.2.1
  have hacc := access_mismatch hload hparse hup hchain hmis
  simp only [process, htry, hacc]
  exact ⟨trivial, trivial, trivial⟩

/-- Claim C4 witness: a concrete decree whose implementation is `[7,7]` but
whose supplied buffer key is `[9,9]` is rejected with the mismatch error. -/
theorem claim4_witness :
    (process exState exAccsMismatch none).result = .error .ImplementationMismatch ∧
    (process exState exAccsMismatch none).state = exState ∧
    (process exState exAccsMismatch none).upgradeCalls = [] :=
  claim4_implementation_mismatch exState exAccsMismatch none
    (exState.insertRecord (consumedKey exAccsMismatch) { bump := 0 }) 255
    (.contractUpgrade { chain := SOLANA_CHAIN, implementation := [7, 7] })
    { chain := SOLANA_CHAIN, implementation := [7, 7] } rfl rfl rfl rfl (by decide)

/-- Claim C5: a recognized governance payload that is not the contract-upgrade
action is rejected with `InvalidGovernanceAction`, and no record is created
(the state is unchanged and holds no record for the envelope). -/
theorem claim5_wrong_action_rejected (s : ProgState) (a : Accs) (cpi : Option Nat)
    (s1 : ProgState) (b : Nat) (p : GovPayload)
    (htry : try_accounts s a = .ok (s1, b))
    (hparse : a.vaaData.parse = .governance p)
    (hup : p.contract_upgrade = none) :
    (process s a cpi).result = .error .InvalidGovernanceAction ∧
    (process s a cpi).state = s ∧
    (process s a cpi).state.record (consumedKey a) = none ∧
    (process s a cpi).upgradeCalls = [] := by
  have hload := (try_accounts_ok htry).2.2.2.1
  have hfresh := (try_accounts_ok htry).2.2.2.2.1
  have hacc := access_wrong_action hload hparse hup
  simp only [process, htry, hacc]
  exact ⟨trivial, trivial, hfresh, trivial⟩

/-- Claim C5 witness: a concrete non-upgrade governance payload is rejected
with the action-type error and leaves no record. -/
theorem claim5_witness :
    (process exState exAccsOtherAction none).result = .error .InvalidGovernanceAction ∧
    (process exState exAccsOtherAction none).state = exState ∧
    (process exState exAccsOtherAction none).state.record (consumedKey exAccsOtherAction) =
      none ∧
    (process exState exAccsOtherAction none).upgradeCalls = [] :=
  claim5_wrong_action_rejected exState exAccsOtherAction none
    (exState.insertRecord (consumedKey exAccsOtherAction) { bump := 0 }) 255
    (.otherAction 4) rfl rfl rfl

/-- Claim C6: the consumption-record key is a deterministic function of the
envelope's content digest, and is injective in it: two envelopes map to the
same key exactly when their raw bytes coincide (so a bit-for-bit replay
collides with the existing record, while a differently-encoded envelope of
the same logical decree gets a distinct key and, as the second conjunct
shows, stays independently consumable after the first is consumed). -/
theorem claim6_key_from_digest (v1 v2 : VaaData) (s : ProgState) (r : ConsumedVaa)
    (hfresh : s.record (consumedKeyOf v2) = none) :
    (consumedKeyOf v1 = consumedKeyOf v2 ↔ v1.bytes = v2.bytes) ∧
    (v1.bytes ≠ v2.bytes →
      (s.insertRecord (consumedKeyOf v1) r).record (consumedKeyOf v2) = none) := by
  have hiff : consumedKeyOf v1 = consumedKeyOf v2 ↔ v1.bytes = v2.bytes := by
    constructor
    · intro h
      simp only [consumedKeyOf, findAddr, createAddr, findBump, pda, VaaData.digest,
        List.cons_append, List.nil_append, List.foldr_cons, List.foldr_nil, List.cons.injEq,
        List.append_cancel_left_eq, List.append_cancel_right_eq, true_and] at h
      exact h.2
    · intro h
      simp only [consumedKeyOf, findAddr, createAddr, findBump, pda, VaaData.digest, h]
  refine ⟨hiff, fun hne => ?_⟩
  rw [record_insert]
  rw [if_neg (fun he : consumedKeyOf v2 = consumedKeyOf v1 => hne (hiff.mp he.symm))]
  exact hfresh

/-- Claim C6 witness: two concrete envelopes with different bytes get
distinct record keys, and consuming the first leaves the second's key free;
identical bytes give the identical key. -/
theorem claim6_witness :
    (consumedKeyOf exVaa =
        consumedKeyOf { discriminatorOk := true, bytes := [9], parse := .malformed } ↔
      exVaa.bytes = [9]) ∧
    (exVaa.bytes ≠ ([9] : Bytes) →
      (exState.insertRecord (consumedKeyOf exVaa) { bump := 1 }).record
        (consumedKeyOf { discriminatorOk := true, bytes := [9], parse := .malformed }) =
        none) :=
  claim6_key_from_digest exVaa
    { discriminatorOk := true, bytes := [9], parse := .malformed } exState { bump := 1 } rfl

/-- Claim C7: when validation succeeds, the handler performs exactly one
invocation of the external code-replacement primitive, passing this program's
identity, its program-data handle, the validated buffer, the authority
account (which the account constraints force to be the address derived from
the fixed upgrade seed label and the custodian's stored bump), the spill
recipient, and the rent and clock sysvars unchanged, signing with the seed
label plus the stored bump byte rather than any stored key. -/
theorem claim7_single_upgrade_invocation (s : ProgState) (a : Accs) (cpi : Option Nat)
    (s1 : ProgState) (b : Nat)
    (htry : try_accounts s a = .ok (s1, b))
    (hacc : handle_access_control a = .ok ()) :
    (process s a cpi).upgradeCalls =
      [{ program := a.thisProgram.key
         programData := a.programData.key
         buffer := a.buffer.key
         authority := a.upgradeAuthority.key
         spill := a.spill.key
         rent := a.rentAcct.key
         clock := a.clockAcct.key
         signerSeeds := [upgradeSeed, [s.custodian.upgradeAuthorityBump]] }] ∧
    a.thisProgram.key = crateId ∧
    a.programData.key = findAddr bpfLoaderId [crateId] ∧
    a.upgradeAuthority.key =
      createAddr crateId [upgradeSeed] s.custodian.upgradeAuthorityBump ∧
    a.rentAcct.key = rentId ∧
    a.clockAcct.key = clockId := by
  obtain ⟨h1, h2, h3, h4, h5, h6, h7, h8, h9, h10, h11, h12, h13, h14⟩ := try_accounts_ok htry
  rw [process_ok cpi htry hacc]
  exact ⟨rfl, h10, h9, h8, h11, h12⟩

/-- Claim C7 witness: a concrete valid decree produces exactly one upgrade
invocation carrying the expected accounts and signer seeds. -/
theorem claim7_witness :
    (process exState exAccs none).upgradeCalls =
      [{ program := crateId
         programData := findAddr bpfLoaderId [crateId]
         buffer := [7, 7]
         authority := createAddr crateId [upgradeSeed] 5
         spill := [52]
         rent := rentId
         clock := clockId
         signerSeeds := [upgradeSeed, [5]] }] ∧
    exAccs.thisProgram.key = crateId ∧
    exAccs.programData.key = findAddr bpfLoaderId [crateId] ∧
    exAccs.upgradeAuthority.key =
      createAddr crateId [upgradeSeed] exState.custodian.upgradeAuthorityBump ∧
    exAccs.rentAcct.key = rentId ∧
    exAccs.clockAcct.key = clockId :=
  claim7_single_upgrade_invocation exState exAccs none
    (exState.insertRecord (consumedKey exAccs) { bump := 0 }) 255 rfl rfl

lemma process_ok_result_fresh {s : ProgState} {a : Accs} {cpi : Option Nat}
    (h : (process s a cpi).result = .ok ()) :
    s.record (consumedKey a) = none := by
  cases h1 : try_accounts s a with
  | error e =>
    simp only [process, h1] at h
    exact Except.noConfusion h
  | ok pr =>
    obtain ⟨s1, b⟩ := pr
    exact (try_accounts_ok h1).2.2.2.2.1

/-- Claim C8: if the external upgrade primitive fails after validation
succeeded, the failure surfaces as the fatal `UpgradeFailed` error, the
consumption record remains in the final state, and no later attempt with the
same envelope bytes (whatever corrected accounts or primitive verdict it
brings) can ever succeed. -/
theorem claim8_no_rollback_after_record (s : ProgState) (a : Accs) (s1 : ProgState)
    (b code : Nat)
    (htry : try_accounts s a = .ok (s1, b))
    (hacc : handle_access_control a = .ok ()) :
    (process s a (some code)).result = .error (.UpgradeFailed code) ∧
    ((process s a (some code)).state.record (consumedKey a)).isSome = true ∧
    (∀ (a2 : Accs) (cpi2 : Option Nat), a2.vaaData.bytes = a.vaaData.bytes →
      (process ((process s a (some code)).state) a2 cpi2).result ≠ .ok ()) := by
  rw [process_ok (some code) htry hacc]
  refine ⟨rfl, by simp [record_insert], ?_⟩
  intro a2 cpi2 hbytes hok
  have hkey : consumedKey a2 = consumedKey a := by
    simp [consumedKey, consumedKeyOf, VaaData.digest, hbytes]
  have hfresh2 := process_ok_result_fresh hok
  rw [hkey, record_insert] at hfresh2
  simp at hfresh2

/-- Claim C8 witness: at a concrete input where the external primitive
fails, the error is fatal and the consumption record remains. -/
theorem claim8_witness :
    (process exState exAccs (some 42)).result = .error (.UpgradeFailed 42) ∧
    ((process exState exAccs (some 42)).state.record (consumedKey exAccs)).isSome = true :=
  ⟨(claim8_no_rollback_after_record exState exAccs
      (exState.insertRecord (consumedKey exAccs) { bump := 0 }) 255 42 rfl rfl).1,
   (claim8_no_rollback_after_record exState exAccs
      (exState.insertRecord (consumedKey exAccs) { bump := 0 }) 255 42 rfl rfl).2.1⟩

end WormholeCircleIntegration
